import Mathlib

/-!
Verification development for the screenshot-mcp repository (src/server.py).

The repository is a thin MCP adapter around the macOS `screencapture`
utility.  We shallowly embed the four tool handlers of
`ScreenshotServer` (`_take_screenshot`, `_take_window_screenshot`,
`_take_area_screenshot`, `_list_screenshots`) and the `call_tool`
dispatcher as pure Lean functions.  External effects (the subprocess
calls, `Path.stat`, the clock, the directory contents) are passed in
explicitly; an exception raised by an external call is modelled as an
`Except.error` carrying the Python `str(e)` text, which the handlers'
`try/except Exception` blocks turn into `"Error: ..."` text results.
-/

namespace ScreenshotMCP

/-- A text content item, modelling `mcp.types.TextContent(text=...)`
(the `type="text"` discriminator is a pydantic default and carries no
information). -/
structure TextContent where
  text : String
deriving DecidableEq, Repr

/-- Result of `subprocess.run(cmd, capture_output=True, text=True)`:
the exit status and the captured error stream. -/
structure CmdRes where
  returncode : Int
  stderr : String
deriving DecidableEq, Repr

/-- A wall-clock instant as produced by `datetime.now()`, with the six
fields that `%Y%m%d_%H%M%S` reads. -/
structure DateTime where
  year : Nat
  month : Nat
  day : Nat
  hour : Nat
  minute : Nat
  second : Nat
deriving DecidableEq, Repr

/-- `stat` metadata of one file: `st_mtime` (modelled as an integer
timestamp, only its ordering matters here) and `st_size` in bytes. -/
structure Stat where
  mtime : Int
  size : Nat
deriving DecidableEq, Repr

/-- One directory entry as seen by `SCREENSHOT_DIR.glob`: its name and
the outcome of calling `.stat()` on it (`Except.error` models an
`OSError` whose `str(e)` is the carried message). -/
structure FileEnt where
  name : String
  stat : Except String Stat
deriving Repr

/-- The argument dict of one tool call; `none` models an absent key, and
the handlers apply the same defaults as the Python `dict.get` calls. -/
structure Args where
  filename : Option String := none
  delay : Option Int := none
  limit : Option Int := none
deriving DecidableEq, Repr

/-- The external world of one invocation: `run` models
`subprocess.run` (returning the process result, or raising), `popen`
models `subprocess.Popen` (raising only on launch failure), `statSize`
models `Path(p).stat().st_size`, `now` is the clock, `dir` is the
enumeration-order snapshot of the screenshot directory, and `fmtTime`
models `datetime.fromtimestamp(t).strftime("%Y-%m-%d %H:%M:%S")`
(an opaque C-library collaborator: no claim depends on its output). -/
structure Env where
  run : List String → Except String CmdRes
  popen : List String → Except String Unit
  statSize : String → Except String Nat
  now : DateTime
  dir : List FileEnt
  fmtTime : Int → String

/-- A fixed-width zero-padded decimal rendering: models a `strftime`
numeric field (`%Y` with width 4, `%m`/`%d`/`%H`/`%M`/`%S` with width
2), faithful for all values below `10 ^ w` — which covers every value
`datetime.now()` can put in those fields. -/
def padNum (w n : Nat) : String :=
  String.mk (((List.range w).reverse).map (fun i => Char.ofNat (48 + n / 10 ^ i % 10)))

/-- Models `datetime.now().strftime("%Y%m%d_%H%M%S")`. -/
def strftimeTs (t : DateTime) : String :=
  padNum 4 t.year ++ padNum 2 t.month ++ padNum 2 t.day ++ "_" ++
    padNum 2 t.hour ++ padNum 2 t.minute ++ padNum 2 t.second

/-- Split a character sequence on `/`, keeping empty pieces (so
`a//b` gives `[a, ε, b]` and a trailing `/` gives a final `ε`). -/
def splitSlash : List Char → List (List Char)
  | [] => [[]]
  | c :: rest =>
    if c = '/' then [] :: splitSlash rest
    else
      match splitSlash rest with
      | [] => [[c]]
      | p :: ps => (c :: p) :: ps

/-- The number of leading `/` characters of a path string;
`pathlib.PurePosixPath` keeps a `//` root exactly when this is 2. -/
def leadingSlashes : List Char → Nat
  | [] => 0
  | c :: rest => if c = '/' then leadingSlashes rest + 1 else 0

/-- The `/`-separated components of `name` that pathlib's parser keeps:
empty components and `.` components are dropped (`..` is kept,
unresolved). -/
def pathParts (name : String) : List (List Char) :=
  (splitSlash name.data).filter (fun c => !(c.isEmpty) && !(decide (c = ['.'])))

/-- Render parsed components after an anchor: `/c1/c2/...` (empty for
no components). -/
def renderRel (comps : List (List Char)) : List Char :=
  comps.foldr (fun c acc => '/' :: (c ++ acc)) []

/-- Render parsed components of an absolute name after its root:
`c1/c2/...`. -/
def intercalateSlash : List (List Char) → List Char
  | [] => []
  | [c] => c
  | c :: rest => c ++ '/' :: intercalateSlash rest

/-- Models `str(pathlib.Path(dir) / name)` on POSIX, for `dir` an
already-normalized non-root absolute path (which `SCREENSHOT_DIR`
always is): pathlib drops empty and `.` components of `name` (so
`./a.png`, `a//b`, and trailing slashes are normalized), an absolute
`name` replaces `dir` entirely, and a root of exactly two slashes is
preserved as `//` (one or three-plus collapse to `/`). -/
def joinPath (dir name : String) : String :=
  let lead := leadingSlashes name.data
  if lead = 0 then dir ++ String.mk (renderRel (pathParts name))
  else (if lead = 2 then "//" else "/") ++ String.mk (intercalateSlash (pathParts name))

/-- The filename actually used by a capture handler: the code's
`filename = args.get("filename"); if not filename: filename = f"<kind>_<ts>.png"`.
Note `if not filename` also replaces an explicitly supplied empty
string. -/
def resolveFilename (argname : Option String) (kind : String) (now : DateTime) : String :=
  match argname with
  | some s => if s = "" then kind ++ "_" ++ strftimeTs now ++ ".png" else s
  | none => kind ++ "_" ++ strftimeTs now ++ ".png"

/-- The resolved target path of a capture handler:
`filepath = SCREENSHOT_DIR / filename`. -/
def resolvedFilepath (dir : String) (now : DateTime) (argname : Option String)
    (kind : String) : String :=
  joinPath dir (resolveFilename argname kind now)

/-- Round `q / d` to the nearest integer, ties to even — the rounding
IEEE-754 formatting applies. -/
def roundHalfEven (q d : Nat) : Nat :=
  let n := q / d
  let r := q % d
  if 2 * r < d then n
  else if d < 2 * r then n + 1
  else if n % 2 = 0 then n else n + 1

/-- Models `f"{size / 1024:.1f}"` for a byte count `size`: since 1024
is a power of two, `size / 1024` is an exact binary float (for any
realistic `size < 2 ^ 53`), and `.1f` rounds that exact rational to one
decimal place, ties to even. -/
def formatKB (size : Nat) : String :=
  let tenths := roundHalfEven (size * 10) 1024
  toString (tenths / 10) ++ "." ++ toString (tenths % 10)

/-- The `screencapture` command built by `_take_screenshot`: a delay
flag only when `delay > 0`, then the target path as last argument. -/
def screenshotCmd (delay : Int) (filepath : String) : List String :=
  ["screencapture"] ++ (if delay > 0 then ["-T", toString delay] else []) ++ [filepath]

/-- `ScreenshotServer._take_screenshot`: resolve the filename, run
`screencapture` synchronously, then either report the saved file and
its size in KB (exit status 0) or the utility's stderr (non-zero); any
exception raised by `subprocess.run` or `Path.stat` is caught and
returned as `"Error: {e}"`. -/
def takeScreenshot (dir : String) (env : Env) (args : Args) : List TextContent :=
  let filename := resolveFilename args.filename "screenshot" env.now
  let filepath := joinPath dir filename
  let delay := args.delay.getD 0
  match env.run (screenshotCmd delay filepath) with
  | Except.error e => [⟨"Error: " ++ e⟩]
  | Except.ok res =>
    if res.returncode = 0 then
      match env.statSize filepath with
      | Except.error e => [⟨"Error: " ++ e⟩]
      | Except.ok size =>
        [⟨"Screenshot saved successfully\nFile: " ++ filepath ++ "\nSize: " ++
          formatKB size ++ " KB"⟩]
    else
      [⟨"Error: Failed to capture screenshot\n" ++ res.stderr⟩]

/-- `ScreenshotServer._take_window_screenshot`: launch
`screencapture -W <path>` detached via `Popen` and acknowledge at once;
only a launch failure produces an error result. -/
def takeWindowScreenshot (dir : String) (env : Env) (args : Args) : List TextContent :=
  let filepath := joinPath dir (resolveFilename args.filename "window" env.now)
  match env.popen ["screencapture", "-W", filepath] with
  | Except.error e => [⟨"Error: " ++ e⟩]
  | Except.ok _ =>
    [⟨"Click on a window to capture screenshot...\n(Will be saved to: " ++ filepath ++ ")"⟩]

/-- `ScreenshotServer._take_area_screenshot`: launch
`screencapture -s <path>` detached via `Popen` and acknowledge at once;
only a launch failure produces an error result. -/
def takeAreaScreenshot (dir : String) (env : Env) (args : Args) : List TextContent :=
  let filepath := joinPath dir (resolveFilename args.filename "area" env.now)
  match env.popen ["screencapture", "-s", filepath] with
  | Except.error e => [⟨"Error: " ++ e⟩]
  | Except.ok _ =>
    [⟨"Drag to select an area to capture...\n(Will be saved to: " ++ filepath ++ ")"⟩]

/-- `SCREENSHOT_DIR.glob("*.png")`: files whose name ends in `.png`
(the pattern's suffix, matched on the character sequence), in
enumeration order.  Unlike the `glob` module, `pathlib.Path.glob`
compiles its pattern with `fnmatch.translate`, which does NOT
special-case a leading dot, so dot-files match too. -/
def globPng (dir : List FileEnt) : List FileEnt :=
  dir.filter (fun f => decide (".png".data <:+ f.name.data))

/-- `sorted(...)` evaluates `key=lambda x: x.stat().st_mtime` once per
globbed entry in enumeration order; the first `OSError` raised there
propagates.  `statAll` pairs each entry with its stat, or returns that
first error. -/
def statAll : List FileEnt → Except String (List (FileEnt × Stat))
  | [] => Except.ok []
  | f :: fs =>
    match f.stat with
    | Except.error e => Except.error e
    | Except.ok st =>
      match statAll fs with
      | Except.error e => Except.error e
      | Except.ok rest => Except.ok ((f, st) :: rest)

/-- `sorted(..., key=..., reverse=True)`: a stable descending sort by
`st_mtime` — entries with equal timestamps keep their enumeration
order, exactly as CPython's stable `sorted` with `reverse=True` does. -/
def sortByMtimeDesc (l : List (FileEnt × Stat)) : List (FileEnt × Stat) :=
  l.mergeSort (fun a b => decide (b.2.mtime ≤ a.2.mtime))

/-- Python's `l[:limit]` for an arbitrary integer `limit`: a
non-negative bound keeps the first `limit` elements, a negative bound
drops that many from the end. -/
def pySlice (limit : Int) (l : List α) : List α :=
  if 0 ≤ limit then l.take limit.toNat
  else l.take (l.length - (-limit).toNat)

/-- The `screenshots` list of `_list_screenshots`: glob, stat-keyed
descending sort, then truncation to `limit` — or the first stat
exception. -/
def listTruncated (limit : Int) (dir : List FileEnt) : Except String (List (FileEnt × Stat)) :=
  match statAll (globPng dir) with
  | Except.error e => Except.error e
  | Except.ok stats => Except.ok (pySlice limit (sortByMtimeDesc stats))

/-- The listing lines `f"{i}. {name} ({size:.1f} KB, {mtime})"`,
numbered from `i` upward (`enumerate(screenshots, 1)` starts at 1). -/
def renderFrom (fmtTime : Int → String) (i : Nat) : List (FileEnt × Stat) → List String
  | [] => []
  | (f, st) :: rest =>
    (toString i ++ ". " ++ f.name ++ " (" ++ formatKB st.size ++ " KB, " ++
      fmtTime st.mtime ++ ")") :: renderFrom fmtTime (i + 1) rest

/-- `ScreenshotServer._list_screenshots`: list the globbed files sorted
by descending modification time, truncated to `limit`; an empty
truncated list yields the `"No screenshots found"` sentinel; any
exception (in particular a stat failure) yields `"Error: {e}"`. -/
def listScreenshots (args : Args) (env : Env) : List TextContent :=
  let limit := args.limit.getD 10
  match listTruncated limit env.dir with
  | Except.error e => [⟨"Error: " ++ e⟩]
  | Except.ok screenshots =>
    if screenshots.isEmpty then
      [⟨"No screenshots found"⟩]
    else
      [⟨String.intercalate "\n"
        ("Recent screenshots:" :: renderFrom env.fmtTime 1 screenshots)⟩]

/-- The four tool names `call_tool` recognizes. -/
def knownTools : List String :=
  ["screenshot", "screenshot_window", "screenshot_area", "list_screenshots"]

/-- The `call_tool` dispatcher: route the named tool to its handler
(with `arguments or {}` defaulting), and answer an unrecognized name
with an `"Unknown tool"` text result instead of raising. -/
def callTool (sdir : String) (env : Env) (name : String) (arguments : Option Args) :
    List TextContent :=
  let args := arguments.getD ⟨none, none, none⟩
  if name = "screenshot" then takeScreenshot sdir env args
  else if name = "screenshot_window" then takeWindowScreenshot sdir env args
  else if name = "screenshot_area" then takeAreaScreenshot sdir env args
  else if name = "list_screenshots" then listScreenshots args env
  else [⟨"Unknown tool: " ++ name⟩]

/-! ### Helper lemmas -/

theorem data_head_append (a b : String) (c : Char) (h : a.data.head? = some c) :
    (a ++ b).data.head? = some c := by
  rw [String.data_append, List.head?_append, h]
  rfl

theorem ne_of_head_ne {a b : String} {ca cb : Char} (ha : a.data.head? = some ca)
    (hb : b.data.head? = some cb) (hne : ca ≠ cb) : a ≠ b := by
  intro e
  rw [e, hb] at ha
  exact hne (Option.some.inj ha).symm

theorem resolveFilename_some {s : String} (hne : s ≠ "") (kind : String) (now : DateTime) :
    resolveFilename (some s) kind now = s := by
  simp [resolveFilename, hne]

theorem infix_extend_right {l : List Char} (x y : String) (h : l <:+: x.data) :
    l <:+: (x ++ y).data := by
  rw [String.data_append]
  exact h.trans ⟨[], y.data, by simp⟩

theorem infix_extend_left {l : List Char} (x y : String) (h : l <:+: y.data) :
    l <:+: (x ++ y).data := by
  rw [String.data_append]
  exact h.trans ⟨x.data, [], by simp⟩

theorem ne_nil_of_head {l : List Char} {c : Char} (h : l.head? = some c) : l ≠ [] := by
  intro e
  rw [e] at h
  cases h

theorem ne_single_of_head {l : List Char} {c d : Char} (h : l.head? = some c) (hcd : c ≠ d) :
    l ≠ [d] := by
  intro e
  rw [e] at h
  exact hcd (Option.some.inj h).symm

theorem splitSlash_of_no_slash : ∀ (l : List Char), '/' ∉ l → splitSlash l = [l]
  | [], _ => rfl
  | c :: rest, h => by
    have hc : c ≠ '/' := fun e => h (e ▸ List.mem_cons_self c rest)
    have hr : '/' ∉ rest := fun m => h (List.mem_cons_of_mem c m)
    unfold splitSlash
    rw [if_neg hc, splitSlash_of_no_slash rest hr]

theorem leadingSlashes_eq_zero {l : List Char} (h : '/' ∉ l) : leadingSlashes l = 0 := by
  cases l with
  | nil => rfl
  | cons c rest =>
    have hc : c ≠ '/' := fun e => h (e ▸ List.mem_cons_self c rest)
    simp [leadingSlashes, hc]

theorem pathParts_single (name : String) (hne : name.data ≠ []) (hdot : name.data ≠ ['.'])
    (hslash : '/' ∉ name.data) : pathParts name = [name.data] := by
  unfold pathParts
  rw [splitSlash_of_no_slash name.data hslash]
  have h1 : name.data.isEmpty = false := by
    cases h : name.data with
    | nil => exact absurd h hne
    | cons a l => rfl
  simp [List.filter_cons, h1, hdot]

/-- A relative name that pathlib's parse reassembles to itself is
joined verbatim under the directory. -/
theorem joinPath_clean (dir name : String) (hlead : leadingSlashes name.data = 0)
    (hclean : renderRel (pathParts name) = '/' :: name.data) :
    joinPath dir name = dir ++ "/" ++ name := by
  unfold joinPath
  dsimp only
  rw [hlead, if_pos rfl, hclean, String.append_assoc]
  rfl

/-- A non-empty single path component (no slash, not `.`) is joined
verbatim under the directory. -/
theorem joinPath_single (dir name : String) (hne : name.data ≠ []) (hdot : name.data ≠ ['.'])
    (hslash : '/' ∉ name.data) : joinPath dir name = dir ++ "/" ++ name := by
  refine joinPath_clean dir name (leadingSlashes_eq_zero hslash) ?_
  rw [pathParts_single name hne hdot hslash]
  simp [renderRel]

/-! ### Shared concrete material for witnesses -/

/-- A fixed clock instant. -/
def t0 : DateTime := ⟨2024, 1, 1, 0, 0, 0⟩

/-- A concrete environment: the utility always exits 0 with empty
stderr, launches succeed, every stat reports 2048 bytes, and the
screenshot directory is empty. -/
def sampleEnv : Env :=
  ⟨fun _ => Except.ok ⟨0, ""⟩, fun _ => Except.ok (), fun _ => Except.ok 2048, t0, [],
    fun _ => "1970-01-01 00:00:00"⟩

/-! ### C3: non-zero exit of the utility -/

/-- C3: whenever the external utility exits with a non-zero status,
`_take_screenshot` returns the error result carrying the utility's
stderr verbatim, and the success message shape is not produced for any
path or size — in particular the outcome is independent of
`env.statSize`, i.e. of whether a partial file exists. -/
theorem capture_full_nonzero_exit_error (sdir : String) (env : Env) (args : Args)
    (res : CmdRes)
    (hrun : env.run (screenshotCmd (args.delay.getD 0)
      (joinPath sdir (resolveFilename args.filename "screenshot" env.now))) = Except.ok res)
    (hrc : res.returncode ≠ 0) :
    takeScreenshot sdir env args =
      [⟨"Error: Failed to capture screenshot\n" ++ res.stderr⟩] ∧
    ∀ p s : String, takeScreenshot sdir env args ≠
      [⟨"Screenshot saved successfully\nFile: " ++ p ++ "\nSize: " ++ s ++ " KB"⟩] := by
  have hmain : takeScreenshot sdir env args =
      [⟨"Error: Failed to capture screenshot\n" ++ res.stderr⟩] := by
    unfold takeScreenshot
    dsimp only
    rw [hrun]
    simp [hrc]
  refine ⟨hmain, ?_⟩
  intro p s h
  rw [hmain] at h
  simp only [List.cons.injEq, TextContent.mk.injEq, and_true] at h
  exact ne_of_head_ne
    (data_head_append "Error: Failed to capture screenshot\n" res.stderr 'E' rfl)
    (data_head_append _ " KB" 'S'
      (data_head_append _ s 'S'
        (data_head_append _ "\nSize: " 'S'
          (data_head_append "Screenshot saved successfully\nFile: " p 'S' rfl))))
    (by decide) h

/-- Witness for C3: a concrete utility failure with stderr
`"boom"` yields exactly the error text. -/
theorem capture_full_nonzero_exit_error_witness :
    takeScreenshot "/d" ⟨fun _ => Except.ok ⟨1, "boom"⟩, fun _ => Except.error "",
        fun _ => Except.ok 2048, t0, [], fun _ => ""⟩ ⟨some "a.png", some 0, none⟩ =
      [⟨"Error: Failed to capture screenshot\n" ++ "boom"⟩] :=
  (capture_full_nonzero_exit_error "/d" _ _ ⟨1, "boom"⟩ rfl (by decide)).1

/-! ### C4: zero exit of the utility -/

/-- C4: whenever the external utility exits with status 0,
`_take_screenshot` returns the success result naming the resolved path
and the stat-reported size rendered as KB with one decimal place; a
2048-byte file is rendered as `2.0`. -/
theorem capture_full_success_report (sdir : String) (env : Env) (args : Args)
    (res : CmdRes) (size : Nat)
    (hrun : env.run (screenshotCmd (args.delay.getD 0)
      (joinPath sdir (resolveFilename args.filename "screenshot" env.now))) = Except.ok res)
    (hrc : res.returncode = 0)
    (hstat : env.statSize (joinPath sdir (resolveFilename args.filename "screenshot" env.now)) =
      Except.ok size) :
    takeScreenshot sdir env args =
      [⟨"Screenshot saved successfully\nFile: " ++
        joinPath sdir (resolveFilename args.filename "screenshot" env.now) ++
        "\nSize: " ++ formatKB size ++ " KB"⟩] ∧
    formatKB 2048 = "2.0" := by
  constructor
  · unfold takeScreenshot
    dsimp only
    rw [hrun]
    simp [hrc, hstat]
  · rfl

/-- Witness for C4, the spec's scenario: filename `a.png`, delay 0,
utility exits 0, the file is 2048 bytes — the result message names
`/d/a.png` and `2.0 KB`. -/
theorem capture_full_success_report_witness :
    takeScreenshot "/d" sampleEnv ⟨some "a.png", some 0, none⟩ =
      [⟨"Screenshot saved successfully\nFile: " ++
        joinPath "/d" (resolveFilename (some "a.png") "screenshot" sampleEnv.now) ++
        "\nSize: " ++ formatKB 2048 ++ " KB"⟩] ∧
    formatKB 2048 = "2.0" :=
  capture_full_success_report "/d" sampleEnv ⟨some "a.png", some 0, none⟩ ⟨0, ""⟩ 2048 rfl rfl rfl

/-! ### C1: supplied filenames are used verbatim (amended to
already-normalized relative names) -/

/-- C1 (amended): for every user-supplied filename that is relative
(no leading slash) and already normalized in pathlib's sense — its
parse reassembles to the name itself, i.e. splitting on `/` yields no
empty and no `.` components — `_take_screenshot` resolves the target
path to `<dir>/<filename>` with the name unaltered, and the supplied
name appears verbatim in the success message.  Names outside this set
are altered: an empty string is replaced by the generated timestamp
name, `.` and empty components are dropped by pathlib, and an absolute
name replaces the directory (see the counterexample). -/
theorem capture_full_filename_verbatim (sdir fname : String) (env : Env) (args : Args)
    (hf : args.filename = some fname) (hne : fname ≠ "")
    (hlead : leadingSlashes fname.data = 0)
    (hclean : renderRel (pathParts fname) = '/' :: fname.data)
    (res : CmdRes) (size : Nat)
    (hrun : env.run (screenshotCmd (args.delay.getD 0) (joinPath sdir fname)) = Except.ok res)
    (hrc : res.returncode = 0)
    (hstat : env.statSize (joinPath sdir fname) = Except.ok size) :
    resolvedFilepath sdir env.now args.filename "screenshot" = sdir ++ "/" ++ fname ∧
    ∃ msg, takeScreenshot sdir env args = [⟨msg⟩] ∧ fname.data <:+: msg.data := by
  have hres : resolveFilename args.filename "screenshot" env.now = fname := by
    rw [hf, resolveFilename_some hne]
  have hjp : joinPath sdir fname = sdir ++ "/" ++ fname := joinPath_clean sdir fname hlead hclean
  constructor
  · rw [resolvedFilepath, hres, hjp]
  · refine ⟨"Screenshot saved successfully\nFile: " ++ joinPath sdir fname ++ "\nSize: " ++
      formatKB size ++ " KB", ?_, ?_⟩
    · unfold takeScreenshot
      dsimp only
      rw [hres, hrun]
      simp [hrc, hstat]
    · refine infix_extend_right _ " KB" (infix_extend_right _ (formatKB size)
        (infix_extend_right _ "\nSize: " (infix_extend_left
          "Screenshot saved successfully\nFile: " _ ?_)))
      rw [hjp, String.append_assoc]
      exact infix_extend_left sdir ("/" ++ fname) (infix_extend_left "/" fname (List.infix_refl _))

/-- Witness for C1: the concrete name `shot one.png` (with a space,
unsanitized, a clean single component) resolves to `/d/shot one.png`
and appears in the message. -/
theorem capture_full_filename_verbatim_witness :
    resolvedFilepath "/d" sampleEnv.now (some "shot one.png") "screenshot" =
      "/d" ++ "/" ++ "shot one.png" ∧
    ∃ msg, takeScreenshot "/d" sampleEnv ⟨some "shot one.png", none, none⟩ = [⟨msg⟩] ∧
      "shot one.png".data <:+: msg.data :=
  capture_full_filename_verbatim "/d" "shot one.png" sampleEnv
    ⟨some "shot one.png", none, none⟩ rfl (by decide) (by decide) (by decide)
    ⟨0, ""⟩ 2048 rfl rfl rfl

/-- Counterexample for C1 as stated: the supplied filename `""` is
replaced by the generated timestamp name rather than used verbatim, and
the supplied filename `./a.png` is normalized by pathlib to `a.png` —
the resolved path is `/d/a.png`, not `/d` joined textually with
`./a.png`, and `./a.png` does not appear verbatim in the success
message. -/
theorem capture_full_filename_verbatim_cex :
    resolvedFilepath "/d" t0 (some "") "screenshot" ≠ joinPath "/d" "" ∧
    joinPath "/d" "./a.png" = "/d/a.png" ∧
    joinPath "/d" "./a.png" ≠ "/d" ++ "/" ++ "./a.png" ∧
    takeScreenshot "/d" sampleEnv ⟨some "./a.png", none, none⟩ =
      [⟨"Screenshot saved successfully\nFile: /d/a.png\nSize: 2.0 KB"⟩] ∧
    ¬ ("./a.png".data <:+:
      ("Screenshot saved successfully\nFile: /d/a.png\nSize: 2.0 KB").data) := by
  refine ⟨by decide, by decide, by decide, ?_, by decide⟩
  decide

/-! ### C9: generated default filename -/

theorem padNum_length (w n : Nat) : (padNum w n).length = w := by
  simp [padNum, String.length]

theorem padNum_digits (w n : Nat) : ∀ c ∈ (padNum w n).data, c.isDigit = true := by
  intro c hc
  simp only [padNum, List.mem_map] at hc
  obtain ⟨i, -, rfl⟩ := hc
  have h10 : n / 10 ^ i % 10 < 10 := Nat.mod_lt _ (by norm_num)
  revert h10
  generalize n / 10 ^ i % 10 = d
  intro h10
  interval_cases d <;> decide

/-- The generated timestamp consists of 8 digits, an underscore, and 6
more digits. -/
theorem strftimeTs_shape (t : DateTime) :
    ∃ dP tP : String, strftimeTs t = dP ++ "_" ++ tP ∧ dP.length = 8 ∧ tP.length = 6 ∧
      (∀ c ∈ dP.data, c.isDigit = true) ∧ (∀ c ∈ tP.data, c.isDigit = true) := by
  refine ⟨padNum 4 t.year ++ padNum 2 t.month ++ padNum 2 t.day,
    padNum 2 t.hour ++ padNum 2 t.minute ++ padNum 2 t.second, ?_, ?_, ?_, ?_, ?_⟩
  · simp [strftimeTs, String.append_assoc]
  · simp [String.length_append, padNum_length]
  · simp [String.length_append, padNum_length]
  · intro c hc
    simp only [String.data_append, List.mem_append] at hc
    rcases hc with (hc | hc) | hc
    · exact padNum_digits 4 t.year c hc
    · exact padNum_digits 2 t.month c hc
    · exact padNum_digits 2 t.day c hc
  · intro c hc
    simp only [String.data_append, List.mem_append] at hc
    rcases hc with (hc | hc) | hc
    · exact padNum_digits 2 t.hour c hc
    · exact padNum_digits 2 t.minute c hc
    · exact padNum_digits 2 t.second c hc

theorem strftimeTs_length (t : DateTime) : (strftimeTs t).length = 15 := by
  simp [strftimeTs, String.length_append, padNum_length,
    show ("_" : String).length = 1 from rfl]

/-- No character of the generated timestamp is a path separator. -/
theorem strftimeTs_no_slash (t : DateTime) : '/' ∉ (strftimeTs t).data := by
  obtain ⟨dP, tP, heq, -, -, hd, ht⟩ := strftimeTs_shape t
  rw [heq]
  intro hmem
  rw [String.data_append, String.data_append] at hmem
  rcases List.mem_append.1 hmem with h' | h'
  · rcases List.mem_append.1 h' with h'' | h''
    · exact absurd (hd '/' h'') (by decide)
    · exact absurd h'' (by decide)
  · exact absurd (ht '/' h') (by decide)

/-- C9: with the filename omitted and any delay ≥ 0, `_take_screenshot`
generates `screenshot_<ts>.png` where `<ts>` has the `YYYYMMDD_HHMMSS`
shape (8 digits, underscore, 6 digits), and resolves it inside the
Screenshot Directory. -/
theorem capture_full_default_filename (sdir : String) (env : Env) (args : Args)
    (hf : args.filename = none) (_hd : 0 ≤ args.delay.getD 0) :
    ∃ ts : String,
      resolveFilename args.filename "screenshot" env.now = "screenshot_" ++ ts ++ ".png" ∧
      resolvedFilepath sdir env.now args.filename "screenshot" =
        sdir ++ "/" ++ ("screenshot_" ++ ts ++ ".png") ∧
      ts.length = 15 ∧
      ∃ dP tP : String, ts = dP ++ "_" ++ tP ∧ dP.length = 8 ∧ tP.length = 6 ∧
        (∀ c ∈ dP.data, c.isDigit = true) ∧ (∀ c ∈ tP.data, c.isDigit = true) := by
  refine ⟨strftimeTs env.now, ?_, ?_, strftimeTs_length env.now, ?_⟩
  · rw [hf]
    show ("screenshot" ++ "_") ++ strftimeTs env.now ++ ".png" =
      ("screenshot_" ++ strftimeTs env.now) ++ ".png"
    rw [show ("screenshot" : String) ++ "_" = "screenshot_" from rfl]
  · have hgen : resolveFilename args.filename "screenshot" env.now =
        "screenshot_" ++ strftimeTs env.now ++ ".png" := by
      rw [hf]
      show ("screenshot" ++ "_") ++ strftimeTs env.now ++ ".png" =
        ("screenshot_" ++ strftimeTs env.now) ++ ".png"
      rw [show ("screenshot" : String) ++ "_" = "screenshot_" from rfl]
    have hhead : (("screenshot_" ++ strftimeTs env.now) ++ ".png").data.head? = some 's' :=
      data_head_append _ ".png" 's' (data_head_append "screenshot_" _ 's' rfl)
    have hslash : '/' ∉ (("screenshot_" ++ strftimeTs env.now) ++ ".png").data := by
      rw [String.data_append, String.data_append]
      intro hmem
      rcases List.mem_append.1 hmem with h' | h'
      · rcases List.mem_append.1 h' with h'' | h''
        · exact absurd h'' (by decide)
        · exact strftimeTs_no_slash env.now h''
      · exact absurd h' (by decide)
    rw [resolvedFilepath, hgen,
      joinPath_single sdir _ (ne_nil_of_head hhead)
        (ne_single_of_head hhead (by decide)) hslash]
  · obtain ⟨dP, tP, h1, h2, h3, h4, h5⟩ := strftimeTs_shape env.now
    exact ⟨dP, tP, h1, h2, h3, h4, h5⟩

/-- Witness for C9: at the fixed clock `t0` the generated name is
`screenshot_20240101_000000.png` under `/d`. -/
theorem capture_full_default_filename_witness :
    (∃ ts : String,
      resolveFilename none "screenshot" sampleEnv.now = "screenshot_" ++ ts ++ ".png" ∧
      resolvedFilepath "/d" sampleEnv.now none "screenshot" =
        "/d" ++ "/" ++ ("screenshot_" ++ ts ++ ".png") ∧
      ts.length = 15 ∧
      ∃ dP tP : String, ts = dP ++ "_" ++ tP ∧ dP.length = 8 ∧ tP.length = 6 ∧
        (∀ c ∈ dP.data, c.isDigit = true) ∧ (∀ c ∈ tP.data, c.isDigit = true)) ∧
    resolveFilename none "screenshot" sampleEnv.now = "screenshot_20240101_000000.png" :=
  ⟨capture_full_default_filename "/d" sampleEnv ⟨none, some 0, none⟩ rfl (by decide), by decide⟩

/-! ### C2: listing is bounded, sorted descending, deterministic -/

theorem pySlice_natCast (N : Nat) {α : Type} (l : List α) : pySlice (N : Int) l = l.take N := by
  simp [pySlice, Int.toNat_natCast]

/-- The boolean comparison `sorted(..., reverse=True)` effectively uses:
later modification time first. -/
theorem mtimeDesc_trans (a b c : FileEnt × Stat) :
    decide (b.2.mtime ≤ a.2.mtime) = true → decide (c.2.mtime ≤ b.2.mtime) = true →
    decide (c.2.mtime ≤ a.2.mtime) = true := by
  simp only [decide_eq_true_iff]
  exact fun hab hbc => le_trans hbc hab

theorem mtimeDesc_total (a b : FileEnt × Stat) :
    (decide (b.2.mtime ≤ a.2.mtime) || decide (a.2.mtime ≤ b.2.mtime)) = true := by
  rcases le_total b.2.mtime a.2.mtime with h | h <;> simp [h]

/-- C2: for every non-negative limit `N` and directory snapshot whose
stats all succeed, the truncated listing has at most `N` entries and is
ordered by descending modification time; correctly-ordered pairs (in
particular equal-timestamp pairs, in enumeration order) are kept in
order by the stable sort; and the rendered output depends only on the
snapshot and time formatter, so two calls against the same snapshot
yield identical output. -/
theorem list_captures_sorted_bounded (N : Nat) (dir : List FileEnt)
    (stats : List (FileEnt × Stat)) (h : statAll (globPng dir) = Except.ok stats) :
    ∃ out, listTruncated (N : Int) dir = Except.ok out ∧
      out.length ≤ N ∧
      List.Pairwise (fun a b : FileEnt × Stat => b.2.mtime ≤ a.2.mtime) out ∧
      (∀ a b : FileEnt × Stat, [a, b].Sublist stats → b.2.mtime ≤ a.2.mtime →
        [a, b].Sublist (sortByMtimeDesc stats)) ∧
      (∀ env₁ env₂ : Env, ∀ args : Args, env₁.dir = dir → env₂.dir = dir →
        env₁.fmtTime = env₂.fmtTime → listScreenshots args env₁ = listScreenshots args env₂) := by
  refine ⟨pySlice (N : Int) (sortByMtimeDesc stats), ?_, ?_, ?_, ?_, ?_⟩
  · unfold listTruncated
    rw [h]
  · rw [pySlice_natCast]
    exact List.length_take_le N _
  · rw [pySlice_natCast]
    have hs : List.Pairwise
        (fun a b : FileEnt × Stat => decide (b.2.mtime ≤ a.2.mtime) = true)
        (sortByMtimeDesc stats) :=
      List.sorted_mergeSort mtimeDesc_trans mtimeDesc_total stats
    exact ((hs.sublist (List.take_sublist N _)).imp (fun hab => of_decide_eq_true hab))
  · intro a b hsub hle
    exact List.sublist_mergeSort mtimeDesc_trans mtimeDesc_total
      (by simp [List.pairwise_cons, hle]) hsub
  · intro env₁ env₂ args h1 h2 h3
    unfold listScreenshots
    rw [h1, h2, h3]

/-- Witness for C2, the spec's scenario: three files `f1 < f2 < f3` by
modification time, limit 2. -/
theorem list_captures_sorted_bounded_witness :
    ∃ out, listTruncated ((2 : Nat) : Int)
        [⟨"f1.png", Except.ok ⟨1, 1024⟩⟩, ⟨"f2.png", Except.ok ⟨2, 2048⟩⟩,
         ⟨"f3.png", Except.ok ⟨3, 512⟩⟩] = Except.ok out ∧
      out.length ≤ 2 ∧
      List.Pairwise (fun a b : FileEnt × Stat => b.2.mtime ≤ a.2.mtime) out ∧
      (∀ a b : FileEnt × Stat,
        [a, b].Sublist [(⟨"f1.png", Except.ok ⟨1, 1024⟩⟩, ⟨1, 1024⟩),
          (⟨"f2.png", Except.ok ⟨2, 2048⟩⟩, ⟨2, 2048⟩),
          (⟨"f3.png", Except.ok ⟨3, 512⟩⟩, ⟨3, 512⟩)] → b.2.mtime ≤ a.2.mtime →
        [a, b].Sublist (sortByMtimeDesc [(⟨"f1.png", Except.ok ⟨1, 1024⟩⟩, ⟨1, 1024⟩),
          (⟨"f2.png", Except.ok ⟨2, 2048⟩⟩, ⟨2, 2048⟩),
          (⟨"f3.png", Except.ok ⟨3, 512⟩⟩, ⟨3, 512⟩)])) ∧
      (∀ env₁ env₂ : Env, ∀ args : Args,
        env₁.dir = [⟨"f1.png", Except.ok ⟨1, 1024⟩⟩, ⟨"f2.png", Except.ok ⟨2, 2048⟩⟩,
          ⟨"f3.png", Except.ok ⟨3, 512⟩⟩] →
        env₂.dir = [⟨"f1.png", Except.ok ⟨1, 1024⟩⟩, ⟨"f2.png", Except.ok ⟨2, 2048⟩⟩,
          ⟨"f3.png", Except.ok ⟨3, 512⟩⟩] →
        env₁.fmtTime = env₂.fmtTime → listScreenshots args env₁ = listScreenshots args env₂) :=
  list_captures_sorted_bounded 2
    [⟨"f1.png", Except.ok ⟨1, 1024⟩⟩, ⟨"f2.png", Except.ok ⟨2, 2048⟩⟩,
     ⟨"f3.png", Except.ok ⟨3, 512⟩⟩] _ rfl

/-! ### C6: empty directory sentinel -/

theorem pySlice_nil (n : Int) {α : Type} : pySlice n ([] : List α) = [] := by
  simp [pySlice]

/-- C6: with zero matching files, `_list_screenshots` returns exactly
the `"No screenshots found"` sentinel, which is not an `"Error: ..."`
text and not the `"Recent screenshots:"` list header. -/
theorem list_captures_empty_sentinel (args : Args) (env : Env) (h : globPng env.dir = []) :
    listScreenshots args env = [⟨"No screenshots found"⟩] ∧
    (∀ e : String, "No screenshots found" ≠ "Error: " ++ e) ∧
    "No screenshots found" ≠ "Recent screenshots:" := by
  refine ⟨?_, ?_, by decide⟩
  · unfold listScreenshots listTruncated
    rw [h]
    show (match Except.ok (pySlice (args.limit.getD 10) (sortByMtimeDesc [])) with
      | Except.error e => [(⟨"Error: " ++ e⟩ : TextContent)]
      | Except.ok screenshots =>
        if screenshots.isEmpty then [(⟨"No screenshots found"⟩ : TextContent)]
        else [⟨String.intercalate "\n"
          ("Recent screenshots:" :: renderFrom env.fmtTime 1 screenshots)⟩]) =
      [(⟨"No screenshots found"⟩ : TextContent)]
    rw [show sortByMtimeDesc [] = [] from List.mergeSort_nil, pySlice_nil]
    rfl
  · intro e he
    exact absurd he (ne_of_head_ne rfl (data_head_append "Error: " e 'E' rfl) (by decide))

/-- Witness for C6: the empty directory of `sampleEnv`. -/
theorem list_captures_empty_sentinel_witness :
    listScreenshots ⟨none, none, none⟩ sampleEnv = [⟨"No screenshots found"⟩] ∧
    (∀ e : String, "No screenshots found" ≠ "Error: " ++ e) ∧
    "No screenshots found" ≠ "Recent screenshots:" :=
  list_captures_empty_sentinel ⟨none, none, none⟩ sampleEnv rfl

/-! ### C7: a stat failure aborts the whole listing (corrected) -/

/-- A directory snapshot with one healthy entry and one whose stat
raises. -/
def c7dir : List FileEnt :=
  [⟨"a.png", Except.ok ⟨5, 100⟩⟩, ⟨"b.png", Except.error "stat failed"⟩]

/-- An environment around `c7dir`. -/
def c7env : Env :=
  ⟨fun _ => Except.error "", fun _ => Except.error "", fun _ => Except.error "", t0, c7dir,
    fun _ => ""⟩

/-- Counterexample for C7 as stated: with `a.png` healthy and `b.png`
raising on stat, the whole listing is the error result — the healthy
entry is NOT listed, so the failing entry was not merely skipped. -/
theorem list_captures_stat_skip_cex :
    listScreenshots ⟨none, none, none⟩ c7env = [⟨"Error: stat failed"⟩] ∧
    ¬ ("a.png".data <:+: "Error: stat failed".data) := by
  constructor
  · rfl
  · decide

/-- C7 (amended): a stat failure on any enumerated matching entry makes
`_list_screenshots` return the single error result carrying that
exception's text; no per-entry skip-and-continue occurs. -/
theorem list_captures_stat_failure_aborts (args : Args) (env : Env) (e : String)
    (h : statAll (globPng env.dir) = Except.error e) :
    listScreenshots args env = [⟨"Error: " ++ e⟩] := by
  unfold listScreenshots listTruncated
  rw [h]

/-- Witness for C7 (amended) at the concrete snapshot `c7dir`. -/
theorem list_captures_stat_failure_aborts_witness :
    listScreenshots ⟨none, none, none⟩ c7env = [⟨"Error: " ++ "stat failed"⟩] :=
  list_captures_stat_failure_aborts ⟨none, none, none⟩ c7env "stat failed" rfl

/-! ### C10: limit 0 yields the sentinel even on a non-empty directory -/

/-- C10: with `limit = 0` and a directory holding at least one matching
file (all stats succeeding), `_list_screenshots` returns the
`"No screenshots found"` sentinel — the emptiness check runs after the
truncation to `limit` entries. -/
theorem list_captures_limit_zero_sentinel (env : Env) (args : Args)
    (hl : args.limit = some 0) (stats : List (FileEnt × Stat))
    (h : statAll (globPng env.dir) = Except.ok stats) (_hne : stats ≠ []) :
    listScreenshots args env = [⟨"No screenshots found"⟩] := by
  unfold listScreenshots listTruncated
  rw [h, hl]
  show (match Except.ok (pySlice ((some (0 : Int)).getD 10) (sortByMtimeDesc stats)) with
    | Except.error e => [(⟨"Error: " ++ e⟩ : TextContent)]
    | Except.ok screenshots =>
      if screenshots.isEmpty then [(⟨"No screenshots found"⟩ : TextContent)]
      else [⟨String.intercalate "\n"
        ("Recent screenshots:" :: renderFrom env.fmtTime 1 screenshots)⟩]) =
    [(⟨"No screenshots found"⟩ : TextContent)]
  rw [show pySlice ((some (0 : Int)).getD 10) (sortByMtimeDesc stats) =
    (sortByMtimeDesc stats).take 0 from pySlice_natCast 0 _]
  rfl

/-- Witness for C10: one healthy matching file, limit 0. -/
theorem list_captures_limit_zero_sentinel_witness :
    listScreenshots ⟨none, none, some 0⟩
      ⟨fun _ => Except.error "", fun _ => Except.error "", fun _ => Except.error "", t0,
        [⟨"a.png", Except.ok ⟨5, 100⟩⟩], fun _ => ""⟩ = [⟨"No screenshots found"⟩] :=
  list_captures_limit_zero_sentinel _ ⟨none, none, some 0⟩ rfl
    [(⟨"a.png", Except.ok ⟨5, 100⟩⟩, ⟨5, 100⟩)] rfl (by simp)

/-! ### C5: the dispatcher never lets a fault escape -/

theorem takeScreenshot_singleton (sdir : String) (env : Env) (args : Args) :
    ∃ s, takeScreenshot sdir env args = [⟨s⟩] := by
  unfold takeScreenshot
  dsimp only
  split
  · exact ⟨_, rfl⟩
  · split
    · split
      · exact ⟨_, rfl⟩
      · exact ⟨_, rfl⟩
    · exact ⟨_, rfl⟩

theorem takeWindowScreenshot_singleton (sdir : String) (env : Env) (args : Args) :
    ∃ s, takeWindowScreenshot sdir env args = [⟨s⟩] := by
  unfold takeWindowScreenshot
  dsimp only
  split
  · exact ⟨_, rfl⟩
  · exact ⟨_, rfl⟩

theorem takeAreaScreenshot_singleton (sdir : String) (env : Env) (args : Args) :
    ∃ s, takeAreaScreenshot sdir env args = [⟨s⟩] := by
  unfold takeAreaScreenshot
  dsimp only
  split
  · exact ⟨_, rfl⟩
  · exact ⟨_, rfl⟩

theorem listScreenshots_singleton (args : Args) (env : Env) :
    ∃ s, listScreenshots args env = [⟨s⟩] := by
  unfold listScreenshots
  dsimp only
  split
  · exact ⟨_, rfl⟩
  · split
    · exact ⟨_, rfl⟩
    · exact ⟨_, rfl⟩

/-- C5: for every operation name, argument set and environment (however
the external calls fail), `call_tool` returns exactly one textual
result — no fault propagates — and an unrecognized name yields the
`Unknown tool` text. -/
theorem call_tool_never_raises (sdir : String) (env : Env) (name : String)
    (arguments : Option Args) :
    (∃ s, callTool sdir env name arguments = [⟨s⟩]) ∧
    (name ∉ knownTools → callTool sdir env name arguments = [⟨"Unknown tool: " ++ name⟩]) := by
  constructor
  · unfold callTool
    dsimp only
    split
    · exact takeScreenshot_singleton sdir env _
    · split
      · exact takeWindowScreenshot_singleton sdir env _
      · split
        · exact takeAreaScreenshot_singleton sdir env _
        · split
          · exact listScreenshots_singleton _ env
          · exact ⟨_, rfl⟩
  · intro hname
    simp only [knownTools, List.mem_cons, List.not_mem_nil, or_false, not_or] at hname
    obtain ⟨h1, h2, h3, h4⟩ := hname
    simp [callTool, h1, h2, h3, h4]

/-- Witness for C5: the unrecognized name `frobnicate` gets the
`Unknown tool` text under a concrete environment. -/
theorem call_tool_never_raises_witness :
    callTool "/d" sampleEnv "frobnicate" none = [⟨"Unknown tool: " ++ "frobnicate"⟩] :=
  (call_tool_never_raises "/d" sampleEnv "frobnicate" none).2 (by decide)

/-! ### C8: interactive modes acknowledge or report a launch error -/

/-- C8: for every input, each interactive handler either acknowledges
immediately with a message naming the eventual target path (when the
process launch succeeds — the acknowledgment is a declared intent, the
model retains no handle on the launched process), or, exactly when the
launch raises, returns that error. -/
theorem interactive_capture_ack (sdir : String) (env : Env) (args : Args) :
    ((∃ u, env.popen ["screencapture", "-W",
        resolvedFilepath sdir env.now args.filename "window"] = Except.ok u ∧
      takeWindowScreenshot sdir env args =
        [⟨"Click on a window to capture screenshot...\n(Will be saved to: " ++
          resolvedFilepath sdir env.now args.filename "window" ++ ")"⟩]) ∨
     (∃ e, env.popen ["screencapture", "-W",
        resolvedFilepath sdir env.now args.filename "window"] = Except.error e ∧
      takeWindowScreenshot sdir env args = [⟨"Error: " ++ e⟩])) ∧
    ((∃ u, env.popen ["screencapture", "-s",
        resolvedFilepath sdir env.now args.filename "area"] = Except.ok u ∧
      takeAreaScreenshot sdir env args =
        [⟨"Drag to select an area to capture...\n(Will be saved to: " ++
          resolvedFilepath sdir env.now args.filename "area" ++ ")"⟩]) ∨
     (∃ e, env.popen ["screencapture", "-s",
        resolvedFilepath sdir env.now args.filename "area"] = Except.error e ∧
      takeAreaScreenshot sdir env args = [⟨"Error: " ++ e⟩])) := by
  constructor
  · cases hp : env.popen ["screencapture", "-W",
      resolvedFilepath sdir env.now args.filename "window"] with
    | error e =>
      refine Or.inr ⟨e, rfl, ?_⟩
      unfold takeWindowScreenshot
      dsimp only
      rw [show joinPath sdir (resolveFilename args.filename "window" env.now) =
        resolvedFilepath sdir env.now args.filename "window" from rfl, hp]
    | ok u =>
      refine Or.inl ⟨u, rfl, ?_⟩
      unfold takeWindowScreenshot
      dsimp only
      rw [show joinPath sdir (resolveFilename args.filename "window" env.now) =
        resolvedFilepath sdir env.now args.filename "window" from rfl, hp]
  · cases hp : env.popen ["screencapture", "-s",
      resolvedFilepath sdir env.now args.filename "area"] with
    | error e =>
      refine Or.inr ⟨e, rfl, ?_⟩
      unfold takeAreaScreenshot
      dsimp only
      rw [show joinPath sdir (resolveFilename args.filename "area" env.now) =
        resolvedFilepath sdir env.now args.filename "area" from rfl, hp]
    | ok u =>
      refine Or.inl ⟨u, rfl, ?_⟩
      unfold takeAreaScreenshot
      dsimp only
      rw [show joinPath sdir (resolveFilename args.filename "area" env.now) =
        resolvedFilepath sdir env.now args.filename "area" from rfl, hp]

end ScreenshotMCP
